import Mathlib

/-!
Verification of the HTTP request module of the node-common repository
(src/request: builder `createRequest`, executor `request`, and the
cookie-aware client) against its natural-language specification.

The definitions below are a shallow embedding of the TypeScript source.
JavaScript numbers used by the module (`timeout`, `maxRetry`) are modelled
by `JsNum`; the platform `URL`, `Headers`, `Request` and `Response` objects
by explicit structures; the platform `fetch` transport by a per-attempt
behaviour function. Asynchronous code is modelled by explicit results: an
attempt either settles (with a value or an error) or never settles
(`hangs`).
-/

namespace NodeCommon

/-- A JavaScript number as used for `timeout` / `maxRetry`: either an
integer-valued number, or a non-integer number (e.g. 1.5, NaN, Infinity)
carrying its `String()` rendering and whether it compares `> 0`. -/
inductive JsNum where
  | int (n : Int)
  | nonInt (str : String) (gtZero : Bool)
deriving DecidableEq, Repr

/-- `Number.MAX_SAFE_INTEGER` = 2^53 - 1. -/
def maxSafeInteger : Nat := 9007199254740991

/-- `Number.isSafeInteger` on the modelled number. -/
def JsNum.isSafeInteger : JsNum → Bool
  | .int n => decide (n.natAbs ≤ maxSafeInteger)
  | .nonInt _ _ => false

/-- The comparison `x > 0` on the modelled number. -/
def JsNum.gt0 : JsNum → Bool
  | .int n => decide (0 < n)
  | .nonInt _ g => g

/-- `String(x)` on the modelled number. -/
def JsNum.toStr : JsNum → String
  | .int n => toString n
  | .nonInt s _ => s

/-- Conversion to `Nat`; only used on values known to be positive safe
integers (the retry counter comparison). -/
def JsNum.toNatClamp : JsNum → Nat
  | .int n => n.toNat
  | .nonInt _ _ => 0

/-- A platform `URL` object: the part before the query string, and the
ordered list of search parameters. -/
structure URLModel where
  base : String
  params : List (String × String)
deriving DecidableEq, Repr

/-- `url.searchParams.has(name)`. -/
def searchParamsHas (u : URLModel) (name : String) : Bool :=
  u.params.any (fun p => p.1 == name)

/-- Replace-or-append semantics shared by `URLSearchParams.set` and
`Headers.set`: the first entry with the name is replaced (any further
entries with the name are removed), otherwise the pair is appended. -/
def setParams : List (String × String) → String → String → List (String × String)
  | [], name, value => [(name, value)]
  | p :: rest, name, value =>
    if p.1 == name then (name, value) :: rest.filter (fun q => q.1 != name)
    else p :: setParams rest name value

/-- `url.searchParams.set(name, value)`. -/
def searchParamsSet (u : URLModel) (name value : String) : URLModel :=
  { u with params := setParams u.params name value }

/-- `url.toString()`. -/
def urlToString (u : URLModel) : String :=
  if u.params.isEmpty then u.base
  else u.base ++ "?" ++ String.intercalate "&" (u.params.map (fun p => p.1 ++ "=" ++ p.2))

/-- Lowercasing of a header name, character by character (header names are
ASCII, for which this agrees with JavaScript lowercasing). -/
def lowerName (s : String) : String :=
  ⟨s.data.map Char.toLower⟩

/-- Construction of a `Headers` object from a header list: name lookup in
`Headers` is case-insensitive, modelled by lowercasing names on
construction. -/
def mkHeaders (hs : List (String × String)) : List (String × String) :=
  hs.map (fun p => (lowerName p.1, p.2))

/-- `headers.has(name)` for an already-lowercased `name`. -/
def headersHas (hs : List (String × String)) (name : String) : Bool :=
  hs.any (fun p => p.1 == name)

/-- `headers.get(name)` for an already-lowercased `name`. -/
def headersGet (hs : List (String × String)) (name : String) : Option String :=
  (hs.find? (fun p => p.1 == name)).map (fun p => p.2)

/-- `headers.set(name, value)`. -/
def headersSet (hs : List (String × String)) (name value : String) : List (String × String) :=
  setParams hs name value

/-- The `reqUrl` argument of `createRequest` (`string | URL`), after the
platform `new URL` step for the string case:
`strOk u` is a string that parses to `u` (a fresh object, invisible to the
caller), `strBad s` is a string on which `new URL` throws, and `urlObj u`
is a caller-supplied `URL` object (aliased: the builder operates on the
caller's own object, so mutation of it is caller-visible). -/
inductive ReqUrl where
  | strOk (u : URLModel)
  | strBad (s : String)
  | urlObj (u : URLModel)
deriving DecidableEq, Repr

/-- A platform `Response`: its status, body text, and the parsed
`Set-Cookie` header entries it carries. -/
structure ResponseModel where
  status : Nat
  body : String
  setCookies : List (String × String) := []
deriving DecidableEq, Repr

/-- `response.ok`: status in the success range 200-299. -/
def resOk (r : ResponseModel) : Bool :=
  decide (200 ≤ r.status ∧ r.status ≤ 299)

/-- An error value raised by the module: `requestError` models the
`RequestError` class of src/unnamed/part_001 (message and optional
response); `jsError` models every other platform error by its `name` and
`message` (plain `Error`s thrown by `createRequest`, `TypeError` from
`new URL`, and transport faults). -/
inductive ErrModel where
  | requestError (msg : String) (response : Option ResponseModel)
  | jsError (name msg : String)
deriving DecidableEq, Repr

/-- A constructed platform `Request` object. -/
structure RequestModel where
  url : URLModel
  method : String
  headers : List (String × String)
deriving DecidableEq, Repr

/-- `CommonRequestOptions` of src/unnamed/part_001. Each optional field is
`none` when absent or `undefined`, mirroring JavaScript destructuring
defaults which fire exactly on `undefined`. -/
structure CommonRequestOptions (T : Type) where
  method : Option String := none
  headers : List (String × String) := []
  appendTimestamp : Option Bool := none
  timestampParamName : Option String := none
  timeout : Option JsNum := none
  maxRetry : Option JsNum := none
  useDefaultUserAgent : Option Bool := none
  responseTransformer : Option (ResponseModel → T) := none

/-- The module-level environment read by the builder: the `isBrowser`
detection of src/unnamed/part_002, the mutable `defaultUserAgent`
binding, and the `Date.now()` clock value. -/
structure Env where
  isBrowser : Bool
  defaultUserAgent : String
  now : Nat

/-- The `new Request(url, options)` step followed by the user-agent
injection of `createRequest` (src/unnamed/part_001 lines 65-69):
if the resolved `useDefaultUserAgent` is true and no user-agent header is
present (case-insensitive), the module default user agent is set. -/
def mkRequest {T : Type} (env : Env) (u : URLModel) (opts : CommonRequestOptions T)
    (useUA : Bool) : RequestModel :=
  let hs := mkHeaders opts.headers
  let hs2 :=
    if useUA && !(headersHas hs "user-agent") then
      headersSet hs "user-agent" env.defaultUserAgent
    else hs
  { url := u, method := opts.method.getD "GET", headers := hs2 }

/-- `createRequest` of src/unnamed/part_001 lines 56-70. The result pairs
the outcome (`Except`: the thrown error or the built request) with the
final state of the `url` local variable (`none` when `new URL` threw
before it was bound). For a `urlObj` input the `url` local is the
caller's own object, so the second component is the caller-visible final
state of that object. -/
def createRequest {T : Type} (env : Env) (reqUrl : ReqUrl) (opts : CommonRequestOptions T) :
    Except ErrModel RequestModel × Option URLModel :=
  let appendTimestamp := opts.appendTimestamp.getD false
  let tsName := opts.timestampParamName.getD "t"
  let useUA := opts.useDefaultUserAgent.getD (!env.isBrowser)
  match reqUrl with
  | .strBad s => (.error (.jsError "TypeError" ("Invalid URL: " ++ s)), none)
  | .strOk u | .urlObj u =>
    if appendTimestamp then
      if searchParamsHas u tsName then
        (.error (.jsError "Error" ("时间戳参数" ++ (tsName ++ ("冲突：" ++ urlToString u)))), some u)
      else
        let u2 := searchParamsSet u tsName (toString env.now)
        (.ok (mkRequest env u2 opts useUA), some u2)
    else
      (.ok (mkRequest env u opts useUA), some u)

/-- The behaviour of one call of the platform transport (`fetch`):
it resolves with a response, rejects with an error of the given name and
message, or never settles on its own. A never-settling call is aborted by
an armed timeout signal, which the platform reports as an `AbortError`
rejection (the transport boundary contract of the specification). -/
inductive TransportBehavior where
  | resolves (res : ResponseModel)
  | rejects (name msg : String)
  | hangs
deriving DecidableEq, Repr

/-- The outcome of one attempt (`doReq` of src/unnamed/part_001): it
settles with a value, settles with an error, or never settles. -/
inductive AttemptResult (T : Type) where
  | ok (v : T)
  | err (e : ErrModel)
  | hangs
deriving DecidableEq, Repr

/-- The outcome of a whole `request` call. -/
inductive RunResult (T : Type) where
  | ok (v : T)
  | err (e : ErrModel)
  | hangs
deriving DecidableEq, Repr

/-- An attempt that settles produces the same settled outcome for the
whole call. -/
def AttemptResult.toRun {T : Type} : AttemptResult T → RunResult T
  | .ok v => .ok v
  | .err e => .err e
  | .hangs => .hangs

/-- `const { timeout = 120 * 1000 } = options` (src/unnamed/part_001
line 80): the default fires exactly when the field is absent or
`undefined`. -/
def resolvedTimeout {T : Type} (opts : CommonRequestOptions T) : JsNum :=
  opts.timeout.getD (.int 120000)

/-- `const { maxRetry = 0 } = options` (src/unnamed/part_001 line 80). -/
def resolvedMaxRetry {T : Type} (opts : CommonRequestOptions T) : JsNum :=
  opts.maxRetry.getD (.int 0)

/-- The timeout arming condition of src/unnamed/part_001 lines 83-90: a
cancellation signal firing after the resolved timeout is armed exactly
when the resolved timeout is a positive safe integer; the result is the
delay of the armed signal, `none` when no signal is armed. -/
def armedSignalDelay {T : Type} (opts : CommonRequestOptions T) : Option JsNum :=
  let timeout := resolvedTimeout opts
  if timeout.isSafeInteger && timeout.gt0 then some timeout else none

/-- The message of the `RequestError` thrown on a non-ok response
(src/unnamed/part_001 line 95). -/
def nonOkMessage : String :=
  "获取响应失败，可能是临时网络波动，如果长时间失败请联系开发者"

/-- The message of the `RequestError` thrown on an `AbortError`
(src/unnamed/part_001 line 104). -/
def timeoutMessage (t : JsNum) : String :=
  "请求超时，强制停止请求(" ++ (t.toStr ++ "ms)")

/-- The transformer application of src/unnamed/part_001 lines 97-100:
the per-call transformer when supplied, else the module default. -/
def applyTransformer {T : Type} (opts : CommonRequestOptions T)
    (defaultT : ResponseModel → T) (res : ResponseModel) : T :=
  match opts.responseTransformer with
  | some f => f res
  | none => defaultT res

/-- One attempt, `doReq` of src/unnamed/part_001 lines 82-113, at the
given (1-based) attempt number. The signal is armed per attempt from the
resolved timeout; `createRequest` throwing rejects the attempt before the
transport is invoked; a resolved non-ok response raises `RequestError`
with `nonOkMessage`; a rejection named `AbortError` is re-classified as
the timeout `RequestError`; any other rejection is re-thrown unchanged; a
never-settling transport is aborted (hence a timeout `RequestError`) when
the signal is armed, and never settles otherwise. -/
def doReq {T : Type} (env : Env) (defaultT : ResponseModel → T)
    (transport : Nat → TransportBehavior) (reqUrl : ReqUrl)
    (opts : CommonRequestOptions T) (attempt : Nat) : AttemptResult T :=
  let timeout := resolvedTimeout opts
  let signalArmed := timeout.isSafeInteger && timeout.gt0
  match (createRequest env reqUrl opts).1 with
  | .error e => .err e
  | .ok _ =>
    match transport attempt with
    | .resolves res =>
      if resOk res then .ok (applyTransformer opts defaultT res)
      else .err (.requestError nonOkMessage (some res))
    | .rejects name m =>
      if name == "AbortError" then .err (.requestError (timeoutMessage timeout) none)
      else .err (.jsError name m)
    | .hangs =>
      if signalArmed then .err (.requestError (timeoutMessage timeout) none)
      else .hangs

/-- The retry loop of src/unnamed/part_001 lines 114-126, by change of
variable: the loop body at counter `c` with `remaining = maxRetry + 1 - c`
retries left. The source re-raises when `counter > maxRetry` after a
failure, which under the loop invariant `counter ≤ maxRetry + 1` holds
exactly when `remaining = 0`. The pair returned is the outcome and the
number of attempts made (the final counter). -/
def retryLoop {T : Type} (f : Nat → AttemptResult T) (counter remaining : Nat) :
    RunResult T × Nat :=
  match f counter with
  | .ok v => (.ok v, counter)
  | .hangs => (.hangs, counter)
  | .err e =>
    match remaining with
    | 0 => (.err e, counter)
    | r + 1 => retryLoop f (counter + 1) r

/-- The executor `request` of src/unnamed/part_001 lines 79-130: when the
resolved `maxRetry` is a positive safe integer the retry loop runs from
counter 1 with `maxRetry` retries remaining, otherwise exactly one
attempt is made and its outcome returned directly. -/
def request {T : Type} (env : Env) (defaultT : ResponseModel → T)
    (transport : Nat → TransportBehavior) (reqUrl : ReqUrl)
    (opts : CommonRequestOptions T) : RunResult T × Nat :=
  let mr := resolvedMaxRetry opts
  if mr.isSafeInteger && mr.gt0 then
    retryLoop (doReq env defaultT transport reqUrl opts) 1 mr.toNatClamp
  else
    ((doReq env defaultT transport reqUrl opts 1).toRun, 1)

/-- A transport call that fails: it settles, and either rejects or
resolves with a response outside the success range. -/
def TransportFails : TransportBehavior → Prop
  | .resolves res => resOk res = false
  | .rejects _ _ => True
  | .hangs => False

/-- The substring relation used for message claims: `sub` occurs inside
`msg`. -/
def containsSub (msg sub : String) : Prop :=
  ∃ p q, msg.data = p ++ (sub.data ++ q)

/-- Modelled from the spec: the final revision of the request executor
(the one exercised by the test file src/unnamed/part_006, which also
exports `HttpClient` and `globalOptions`) is not under src; only its test
file is. Per the specification, a received response whose status is not
in the success range raises a `RequestError` whose message depends on the
status class: status 500-599 gives the transient-network-fluctuation
wording, any other non-success status gives a message stating the literal
status code. The exact strings follow the assertions of the test file. -/
def statusFailureMessage (status : Nat) : String :=
  if 500 ≤ status ∧ status ≤ 599 then
    "请求失败(HTTP Status " ++ (toString status ++ ")，可能是临时网络波动，如果长时间失败请联系开发者")
  else
    "HTTP响应状态：" ++ toString status

/-- Modelled from the spec: the response-handling step of the final
executor revision (missing from src, tested by src/unnamed/part_006): an
ok response is transformed, a non-ok response raises a `RequestError`
carrying the response and the status-classified message. -/
def handleResponseFinal {T : Type} (opts : CommonRequestOptions T)
    (defaultT : ResponseModel → T) (res : ResponseModel) : Except ErrModel T :=
  if resOk res then .ok (applyTransformer opts defaultT res)
  else .error (.requestError (statusFailureMessage res.status) (some res))

/-- Modelled from the spec: the cookie jar owned by an `HttpClient`
instance (the `HttpClient` source is missing from src; only its test file
src/unnamed/part_006 is present): a store of (canonical domain, cookie
name, cookie value) entries. -/
structure CookieJar where
  store : List (String × String × String)
deriving DecidableEq, Repr

/-- Modelled from the spec: storing one cookie for a domain, last write
winning per (domain, name) key. -/
def CookieJar.setCookie (jar : CookieJar) (domain name value : String) : CookieJar :=
  ⟨(domain, name, value) :: jar.store.filter (fun c => !(c.1 == domain && c.2.1 == name))⟩

/-- Modelled from the spec: storing every parsed `Set-Cookie` entry of a
response into the jar under the canonical domain of the request. -/
def storeSetCookies (jar : CookieJar) (domain : String)
    (cookies : List (String × String)) : CookieJar :=
  cookies.foldl (fun j nv => j.setCookie domain nv.1 nv.2) jar

/-- Modelled from the spec: the error path of `HttpClient.request`
(missing from src, tested by src/unnamed/part_006 lines 320-341): when
the propagating error is a `RequestError` carrying a response, the
`Set-Cookie` entries of that response are stored into the jar as a side
effect and the original error is re-raised unchanged; any other error
leaves the jar untouched and propagates unchanged. -/
def clientOnError (jar : CookieJar) (domain : String) (e : ErrModel) :
    CookieJar × ErrModel :=
  match e with
  | .requestError msg (some res) => (storeSetCookies jar domain res.setCookies, .requestError msg (some res))
  | e => (jar, e)

/-! Concrete inputs used to exercise the model at specific points. -/

/-- A server-like environment with a fixed clock and default user agent. -/
def envTest : Env := ⟨false, "TestAgent", 1700000000000⟩

/-- The default response transformer of the module: read the body as text. -/
def defaultTText : ResponseModel → String := fun r => r.body

/-- A URL with no query parameters. -/
def urlPlain : URLModel := ⟨"https://example.com/", []⟩

/-- A URL whose query string already contains the parameter `t`. -/
def urlWithT : URLModel := ⟨"https://example.com/", [("t", "1")]⟩

/-- A success response. -/
def resGood : ResponseModel := ⟨200, "response text", []⟩

/-- A 404 response. -/
def resNotFound : ResponseModel := ⟨404, "", []⟩

/-- A failing response carrying a Set-Cookie entry. -/
def resServerErrCookie : ResponseModel := ⟨500, "", [("error_session", "error123")]⟩

/-- A transport that rejects on every attempt. -/
def failTransport : Nat → TransportBehavior := fun _ => .rejects "Error" "network error"

/-- A transport that never settles on its own. -/
def hangTransport : Nat → TransportBehavior := fun _ => .hangs

/-- A transport that rejects on attempt 1 and resolves from attempt 2 on. -/
def failOnceTransport : Nat → TransportBehavior :=
  fun i => if i ≤ 1 then .rejects "Error" "network error" else .resolves resGood

/-- Options with `maxRetry = 2`. -/
def optsRetry2 : CommonRequestOptions String := { maxRetry := some (.int 2) }

/-- Options with `maxRetry = 3`. -/
def optsRetry3 : CommonRequestOptions String := { maxRetry := some (.int 3) }

/-- Options with a timestamp conflict to come and `maxRetry = 1`. -/
def optsConflictRetry1 : CommonRequestOptions String :=
  { appendTimestamp := some true, maxRetry := some (.int 1) }

/-- Options with `timeout = 100`. -/
def optsTimeout100 : CommonRequestOptions String := { timeout := some (.int 100) }

/-- Options with an explicit `timeout = 0`. -/
def optsTimeout0 : CommonRequestOptions String := { timeout := some (.int 0) }

/-- Options with a caller-supplied user-agent header in unusual casing. -/
def optsCustomUA : CommonRequestOptions String :=
  { headers := [("USER-AGENT", "Custom-Agent")] }

/-- Options asking for a cache-busting timestamp. -/
def optsTs : CommonRequestOptions String := { appendTimestamp := some true }

/-- An empty cookie jar. -/
def jarEmpty : CookieJar := ⟨[]⟩

/-! Helper lemmas. -/

theorem retryLoop_all_fail {T : Type} (f : Nat → AttemptResult T) :
    ∀ remaining counter,
      (∀ i, counter ≤ i → i ≤ counter + remaining → ∃ e, f i = .err e) →
      ∃ e, f (counter + remaining) = .err e ∧
        retryLoop f counter remaining = (.err e, counter + remaining) := by
  intro remaining
  induction remaining with
  | zero =>
    intro counter h
    obtain ⟨e, he⟩ := h counter le_rfl (by omega)
    exact ⟨e, by simpa using he, by simp [retryLoop, he]⟩
  | succ r ih =>
    intro counter h
    obtain ⟨e, he⟩ := h counter le_rfl (by omega)
    obtain ⟨e2, he2, hloop⟩ := ih (counter + 1) (fun i h1 h2 => h i (by omega) (by omega))
    refine ⟨e2, ?_, ?_⟩
    · have : counter + (r + 1) = counter + 1 + r := by omega
      rw [this]; exact he2
    · have : counter + (r + 1) = counter + 1 + r := by omega
      rw [this, retryLoop, he]; exact hloop

theorem retryLoop_const_err {T : Type} (f : Nat → AttemptResult T) (e : ErrModel) :
    ∀ remaining counter, (∀ i, f i = .err e) →
      retryLoop f counter remaining = (.err e, counter + remaining) := by
  intro remaining
  induction remaining with
  | zero => intro counter h; simp [retryLoop, h counter]
  | succ r ih =>
    intro counter h
    have hstep : retryLoop f counter (r + 1) = retryLoop f (counter + 1) r := by
      rw [retryLoop, h counter]
    rw [hstep, ih (counter + 1) h]
    congr 1
    omega

theorem retryLoop_succeeds {T : Type} (f : Nat → AttemptResult T) :
    ∀ remaining counter k (v : T), counter ≤ k → k ≤ counter + remaining →
      (∀ i, counter ≤ i → i < k → ∃ e, f i = .err e) → f k = .ok v →
      retryLoop f counter remaining = (.ok v, k) := by
  intro remaining
  induction remaining with
  | zero =>
    intro counter k v h1 h2 _ hk
    have : k = counter := by omega
    subst this
    simp [retryLoop, hk]
  | succ r ih =>
    intro counter k v h1 h2 hfail hk
    rcases Nat.eq_or_lt_of_le h1 with heq | hlt
    · subst heq
      simp [retryLoop, hk]
    · obtain ⟨e, he⟩ := hfail counter le_rfl hlt
      rw [retryLoop, he]
      exact ih (counter + 1) k v (by omega) (by omega)
        (fun i ha hb => hfail i (by omega) hb) hk

theorem doReq_err_of_transportFails {T : Type} (env : Env) (defaultT : ResponseModel → T)
    (transport : Nat → TransportBehavior) (reqUrl : ReqUrl)
    (opts : CommonRequestOptions T) (i : Nat)
    (hreq : ∃ r, (createRequest env reqUrl opts).1 = .ok r)
    (hf : TransportFails (transport i)) :
    ∃ e, doReq env defaultT transport reqUrl opts i = .err e := by
  obtain ⟨r, hr⟩ := hreq
  unfold doReq
  rw [hr]
  cases ht : transport i with
  | resolves res =>
    rw [ht] at hf
    exact ⟨.requestError nonOkMessage (some res), by simp [TransportFails] at hf; simp [hf]⟩
  | rejects name m =>
    by_cases hn : name == "AbortError"
    · exact ⟨.requestError (timeoutMessage (resolvedTimeout opts)) none, by simp [hn]⟩
    · exact ⟨.jsError name m, by simp [hn]⟩
  | hangs => rw [ht] at hf; exact absurd hf (by simp [TransportFails])

theorem doReq_ok_of_resolves {T : Type} (env : Env) (defaultT : ResponseModel → T)
    (transport : Nat → TransportBehavior) (reqUrl : ReqUrl)
    (opts : CommonRequestOptions T) (i : Nat) (res : ResponseModel)
    (hreq : ∃ r, (createRequest env reqUrl opts).1 = .ok r)
    (ht : transport i = .resolves res) (hok : resOk res = true) :
    doReq env defaultT transport reqUrl opts i = .ok (applyTransformer opts defaultT res) := by
  obtain ⟨r, hr⟩ := hreq
  unfold doReq
  rw [hr, ht]
  simp [hok]

theorem maxRetry_int_pos_branch {T : Type} (opts : CommonRequestOptions T) (N : Nat)
    (hmr : opts.maxRetry = some (.int (N : Int))) (hpos : 0 < N)
    (hsafe : N ≤ maxSafeInteger) :
    (((resolvedMaxRetry opts).isSafeInteger && (resolvedMaxRetry opts).gt0) = true) ∧
      (resolvedMaxRetry opts).toNatClamp = N := by
  rw [resolvedMaxRetry, hmr]
  refine ⟨?_, by simp [JsNum.toNatClamp]⟩
  simp only [Option.getD_some, JsNum.isSafeInteger, JsNum.gt0]
  rw [Bool.and_eq_true, decide_eq_true_iff, decide_eq_true_iff]
  exact ⟨by simpa using hsafe, by exact_mod_cast hpos⟩

theorem createRequest_conflict {T : Type} (env : Env) (u : URLModel)
    (opts : CommonRequestOptions T) (reqUrl : ReqUrl)
    (hin : reqUrl = .strOk u ∨ reqUrl = .urlObj u)
    (hts : opts.appendTimestamp = some true)
    (hconf : searchParamsHas u (opts.timestampParamName.getD "t") = true) :
    createRequest env reqUrl opts =
      (.error (.jsError "Error"
        ("时间戳参数" ++ ((opts.timestampParamName.getD "t") ++ ("冲突：" ++ urlToString u)))),
       some u) := by
  rcases hin with h | h <;> subst h <;> simp [createRequest, hts, hconf]

theorem jsnum_int_pos_cond (N : Nat) (hpos : 0 < N) (hsafe : N ≤ maxSafeInteger) :
    ((JsNum.int (N : Int)).isSafeInteger && (JsNum.int (N : Int)).gt0) = true := by
  simp only [JsNum.isSafeInteger, JsNum.gt0]
  rw [Bool.and_eq_true, decide_eq_true_iff, decide_eq_true_iff]
  exact ⟨by simpa using hsafe, by exact_mod_cast hpos⟩

theorem headersGet_set_self (hs : List (String × String)) (n v : String) :
    headersGet (headersSet hs n v) n = some v := by
  induction hs with
  | nil => simp [headersGet, headersSet, setParams]
  | cons p rest ih =>
    by_cases hp : p.1 == n
    · simp [headersGet, headersSet, setParams, hp]
    · have hp2 : (p.1 == n) = false := by simpa using hp
      have hset : headersSet (p :: rest) n v = p :: headersSet rest n v := by
        simp [headersSet, setParams, hp2]
      rw [hset, headersGet, List.find?_cons_of_neg]
      · exact ih
      · simp [hp2]

theorem headersHas_of_get (hs : List (String × String)) (n v : String)
    (h : headersGet hs n = some v) : headersHas hs n = true := by
  rw [headersGet] at h
  obtain ⟨p, hfind⟩ : ∃ p, hs.find? (fun q => q.1 == n) = some p := by
    cases hf : hs.find? (fun q => q.1 == n) with
    | none => rw [hf] at h; simp at h
    | some p => exact ⟨p, rfl⟩
  have hmem := List.mem_of_find?_eq_some hfind
  have hpred := List.find?_some hfind
  exact List.any_eq_true.mpr ⟨p, hmem, hpred⟩

theorem createRequest_ok_headers {T : Type} (env : Env) (reqUrl : ReqUrl)
    (opts : CommonRequestOptions T) (req : RequestModel)
    (h : (createRequest env reqUrl opts).1 = .ok req) :
    req.headers =
      if opts.useDefaultUserAgent.getD (!env.isBrowser) &&
          !(headersHas (mkHeaders opts.headers) "user-agent") then
        headersSet (mkHeaders opts.headers) "user-agent" env.defaultUserAgent
      else mkHeaders opts.headers := by
  cases reqUrl with
  | strBad s => simp [createRequest] at h
  | strOk u =>
    simp only [createRequest] at h
    by_cases hts : opts.appendTimestamp.getD false = true
    · by_cases hconf : searchParamsHas u (opts.timestampParamName.getD "t") = true
      · rw [if_pos hts, if_pos hconf] at h
        simp at h
      · rw [if_pos hts, if_neg hconf] at h
        simp only [Except.ok.injEq] at h
        rw [← h]
        simp [mkRequest]
    · rw [if_neg hts] at h
      simp only [Except.ok.injEq] at h
      rw [← h]
      simp [mkRequest]
  | urlObj u =>
    simp only [createRequest] at h
    by_cases hts : opts.appendTimestamp.getD false = true
    · by_cases hconf : searchParamsHas u (opts.timestampParamName.getD "t") = true
      · rw [if_pos hts, if_pos hconf] at h
        simp at h
      · rw [if_pos hts, if_neg hconf] at h
        simp only [Except.ok.injEq] at h
        rw [← h]
        simp [mkRequest]
    · rw [if_neg hts] at h
      simp only [Except.ok.injEq] at h
      rw [← h]
      simp [mkRequest]

theorem containsSub_of_parts (a s b : String) : containsSub (a ++ (s ++ b)) s :=
  ⟨a.data, b.data, by simp [String.data_append]⟩

theorem containsSub_append_left (a b s : String) (h : containsSub b s) :
    containsSub (a ++ b) s := by
  obtain ⟨p, q, hp⟩ := h
  exact ⟨a.data ++ p, q, by simp [String.data_append, hp]⟩

theorem cookie_entry_preserved (jar : CookieJar) (d n d2 n2 v2 : String)
    (h : ∃ v, (d, n, v) ∈ jar.store) :
    ∃ v, (d, n, v) ∈ (jar.setCookie d2 n2 v2).store := by
  obtain ⟨v, hv⟩ := h
  by_cases hk : d = d2 ∧ n = n2
  · exact ⟨v2, by rw [hk.1, hk.2]; exact List.mem_cons_self _ _⟩
  · refine ⟨v, List.mem_cons_of_mem _ (List.mem_filter.mpr ⟨hv, ?_⟩)⟩
    simp only [Bool.not_eq_true', Bool.and_eq_false_iff, beq_eq_false_iff_ne, ne_eq]
    by_cases hd : d = d2
    · exact Or.inr (fun hn => hk ⟨hd, hn⟩)
    · exact Or.inl hd

theorem storeSetCookies_keeps (d n : String) :
    ∀ (cs : List (String × String)) (jar : CookieJar) (dom : String),
      (∃ v, (d, n, v) ∈ jar.store) →
      ∃ v, (d, n, v) ∈ (storeSetCookies jar dom cs).store := by
  intro cs
  induction cs with
  | nil => intro jar dom h; exact h
  | cons c rest ih =>
    intro jar dom h
    exact ih (jar.setCookie dom c.1 c.2) dom (cookie_entry_preserved jar d n dom c.1 c.2 h)

theorem storeSetCookies_mem (dom : String) :
    ∀ (cs : List (String × String)) (jar : CookieJar) (n v : String),
      (n, v) ∈ cs →
      ∃ w, (dom, n, w) ∈ (storeSetCookies jar dom cs).store := by
  intro cs
  induction cs with
  | nil => intro jar n v h; cases h
  | cons c rest ih =>
    intro jar n v h
    rcases List.mem_cons.mp h with heq | hmem
    · refine storeSetCookies_keeps dom n rest (jar.setCookie dom c.1 c.2) dom ?_
      refine ⟨c.2, ?_⟩
      have : (dom, c.1, c.2) ∈ (jar.setCookie dom c.1 c.2).store := List.mem_cons_self _ _
      rw [← heq] at this ⊢
      exact this
    · exact ih (jar.setCookie dom c.1 c.2) n v hmem

/-! Claim theorems. -/

/-- C1: with `maxRetry = N` (a positive safe integer) and a transport that
fails on every attempt, the executor makes exactly N + 1 attempts (calls of
the per-attempt sequence) and then re-raises the error of the last attempt
to the caller. -/
theorem C1_always_failing_transport_makes_N_plus_1_attempts {T : Type}
    (env : Env) (defaultT : ResponseModel → T) (transport : Nat → TransportBehavior)
    (reqUrl : ReqUrl) (opts : CommonRequestOptions T) (N : Nat)
    (hmr : opts.maxRetry = some (.int (N : Int))) (hpos : 0 < N) (hsafe : N ≤ maxSafeInteger)
    (hreq : ∃ r, (createRequest env reqUrl opts).1 = .ok r)
    (hfail : ∀ i, TransportFails (transport i)) :
    ∃ e, doReq env defaultT transport reqUrl opts (N + 1) = .err e ∧
      request env defaultT transport reqUrl opts = (.err e, N + 1) := by
  obtain ⟨hcond, hclamp⟩ := maxRetry_int_pos_branch opts N hmr hpos hsafe
  have hloop : request env defaultT transport reqUrl opts =
      retryLoop (doReq env defaultT transport reqUrl opts) 1 N := by
    simp [request, hcond, hclamp]
  obtain ⟨e, he, hl⟩ := retryLoop_all_fail (doReq env defaultT transport reqUrl opts) N 1
    (fun i _ _ => doReq_err_of_transportFails env defaultT transport reqUrl opts i hreq (hfail i))
  refine ⟨e, by rwa [Nat.add_comm 1 N] at he, ?_⟩
  rw [hloop, hl, Nat.add_comm 1 N]

/-- C1 witness: `maxRetry = 2` with an always-rejecting transport gives
exactly 3 attempts and surfaces the error of attempt 3. -/
theorem C1_witness :
    (0 < 2 ∧ 2 ≤ maxSafeInteger ∧ optsRetry2.maxRetry = some (.int (2 : Nat))) ∧
    (∃ e, doReq envTest defaultTText failTransport (.strOk urlPlain) optsRetry2 3 = .err e ∧
      request envTest defaultTText failTransport (.strOk urlPlain) optsRetry2 = (.err e, 3)) :=
  ⟨⟨by decide, by decide, rfl⟩,
    C1_always_failing_transport_makes_N_plus_1_attempts envTest defaultTText failTransport
      (.strOk urlPlain) optsRetry2 2 rfl (by decide) (by decide) ⟨_, rfl⟩ (fun _ => trivial)⟩

/-- C3 counterexample: with `maxRetry = 1` and a URL whose query string
already carries the timestamp parameter, the ConfigurationError raised by
the builder on attempt 1 is not surfaced immediately: a second attempt is
started and the error reaches the caller only after attempt 2 — the claim
that such an error is never retried is false of the code. -/
theorem C3_counterexample :
    request envTest defaultTText hangTransport (.strOk urlWithT) optsConflictRetry1 =
      (.err (.jsError "Error" "时间戳参数t冲突：https://example.com/?t=1"), 2) := by
  rfl

/-- C3 (amended): a ConfigurationError raised while building the request is
subject to the same unconditional retry policy as any other failure: with
`maxRetry = N` (a positive safe integer) and a persistent timestamp
conflict, the builder is re-run on every attempt and the error is surfaced
to the caller only after N + 1 attempts have raised it. -/
theorem C3_amended_config_error_is_retried {T : Type} (env : Env)
    (defaultT : ResponseModel → T) (transport : Nat → TransportBehavior)
    (u : URLModel) (reqUrl : ReqUrl) (opts : CommonRequestOptions T) (N : Nat)
    (hin : reqUrl = .strOk u ∨ reqUrl = .urlObj u)
    (hts : opts.appendTimestamp = some true)
    (hconf : searchParamsHas u (opts.timestampParamName.getD "t") = true)
    (hmr : opts.maxRetry = some (.int (N : Int))) (hpos : 0 < N) (hsafe : N ≤ maxSafeInteger) :
    request env defaultT transport reqUrl opts =
      (.err (.jsError "Error"
        ("时间戳参数" ++ ((opts.timestampParamName.getD "t") ++ ("冲突：" ++ urlToString u)))),
       N + 1) := by
  obtain ⟨hcond, hclamp⟩ := maxRetry_int_pos_branch opts N hmr hpos hsafe
  have hcr := createRequest_conflict env u opts reqUrl hin hts hconf
  have hdo : ∀ i, doReq env defaultT transport reqUrl opts i =
      .err (.jsError "Error"
        ("时间戳参数" ++ ((opts.timestampParamName.getD "t") ++ ("冲突：" ++ urlToString u)))) := by
    intro i
    simp [doReq, hcr]
  have hloop : request env defaultT transport reqUrl opts =
      retryLoop (doReq env defaultT transport reqUrl opts) 1 N := by
    simp [request, hcond, hclamp]
  rw [hloop, retryLoop_const_err _ _ N 1 hdo, Nat.add_comm 1 N]

/-- C3 witness (for the amended claim): a conflicting URL with
`maxRetry = 1` makes 2 attempts and then surfaces the configuration
error. -/
theorem C3_witness :
    (optsConflictRetry1.appendTimestamp = some true ∧
      optsConflictRetry1.maxRetry = some (.int (1 : Nat)) ∧
      searchParamsHas urlWithT (optsConflictRetry1.timestampParamName.getD "t") = true) ∧
    request envTest defaultTText failTransport (.urlObj urlWithT) optsConflictRetry1 =
      (.err (.jsError "Error"
        ("时间戳参数" ++ ((optsConflictRetry1.timestampParamName.getD "t") ++
          ("冲突：" ++ urlToString urlWithT)))), 2) :=
  ⟨⟨rfl, rfl, by decide⟩,
    C3_amended_config_error_is_retried envTest defaultTText failTransport urlWithT
      (.urlObj urlWithT) optsConflictRetry1 1 (Or.inr rfl) rfl (by decide) rfl
      (by decide) (by decide)⟩

/-- C4: for every options value and every URL whose query string already
contains the configured timestamp parameter name, calling the builder with
`appendTimestamp = true` fails with a configuration error whose message
names the conflicting parameter and the offending URL, and the failure
happens before any mutation of the URL (the final URL state equals the
input), regardless of all other option fields. -/
theorem C4_timestamp_conflict_fails_before_mutation {T : Type} (env : Env) (u : URLModel)
    (opts : CommonRequestOptions T) (reqUrl : ReqUrl)
    (hin : reqUrl = .strOk u ∨ reqUrl = .urlObj u)
    (hts : opts.appendTimestamp = some true)
    (hconf : searchParamsHas u (opts.timestampParamName.getD "t") = true) :
    createRequest env reqUrl opts =
      (.error (.jsError "Error"
        ("时间戳参数" ++ ((opts.timestampParamName.getD "t") ++ ("冲突：" ++ urlToString u)))),
       some u) :=
  createRequest_conflict env u opts reqUrl hin hts hconf

/-- C4 witness: the conflict on `urlWithT` fails with the expected message
and leaves the URL unchanged. -/
theorem C4_witness :
    (optsTs.appendTimestamp = some true ∧
      searchParamsHas urlWithT (optsTs.timestampParamName.getD "t") = true) ∧
    createRequest envTest (.urlObj urlWithT) optsTs =
      (.error (.jsError "Error" "时间戳参数t冲突：https://example.com/?t=1"), some urlWithT) :=
  ⟨⟨rfl, by decide⟩,
    C4_timestamp_conflict_fails_before_mutation envTest urlWithT optsTs (.urlObj urlWithT)
      (Or.inr rfl) rfl (by decide)⟩

/-- C5: with `maxRetry = N` (a positive safe integer) and a transport that
fails exactly k ≤ N times and then resolves with an ok response, the
executor makes exactly k + 1 attempts and returns the transformed success
value of the final attempt. -/
theorem C5_fail_k_then_succeed_makes_k_plus_1_attempts {T : Type}
    (env : Env) (defaultT : ResponseModel → T) (transport : Nat → TransportBehavior)
    (reqUrl : ReqUrl) (opts : CommonRequestOptions T) (N k : Nat) (res : ResponseModel)
    (hmr : opts.maxRetry = some (.int (N : Int))) (hpos : 0 < N) (hsafe : N ≤ maxSafeInteger)
    (hk : k ≤ N)
    (hreq : ∃ r, (createRequest env reqUrl opts).1 = .ok r)
    (hfail : ∀ i, 1 ≤ i → i ≤ k → TransportFails (transport i))
    (hsucc : transport (k + 1) = .resolves res) (hok : resOk res = true) :
    request env defaultT transport reqUrl opts =
      (.ok (applyTransformer opts defaultT res), k + 1) := by
  obtain ⟨hcond, hclamp⟩ := maxRetry_int_pos_branch opts N hmr hpos hsafe
  have hloop : request env defaultT transport reqUrl opts =
      retryLoop (doReq env defaultT transport reqUrl opts) 1 N := by
    simp [request, hcond, hclamp]
  rw [hloop]
  exact retryLoop_succeeds (doReq env defaultT transport reqUrl opts) N 1 (k + 1)
    (applyTransformer opts defaultT res) (by omega) (by omega)
    (fun i h1 h2 =>
      doReq_err_of_transportFails env defaultT transport reqUrl opts i hreq
        (hfail i h1 (by omega)))
    (doReq_ok_of_resolves env defaultT transport reqUrl opts (k + 1) res hreq hsucc hok)

/-- C5 witness: `maxRetry = 3` with a transport failing once then
resolving gives 2 attempts and the transformed body of the final
response. -/
theorem C5_witness :
    (0 < 3 ∧ 1 ≤ 3 ∧ optsRetry3.maxRetry = some (.int (3 : Nat)) ∧
      failOnceTransport 2 = .resolves resGood ∧ resOk resGood = true) ∧
    request envTest defaultTText failOnceTransport (.strOk urlPlain) optsRetry3 =
      (.ok "response text", 2) :=
  ⟨⟨by decide, by decide, rfl, rfl, by decide⟩,
    C5_fail_k_then_succeed_makes_k_plus_1_attempts envTest defaultTText failOnceTransport
      (.strOk urlPlain) optsRetry3 3 1 resGood rfl (by decide) (by decide) (by decide)
      ⟨_, rfl⟩
      (fun i h1 h2 => by
        have hi : i = 1 := by omega
        subst hi
        trivial)
      rfl (by decide)⟩

/-- C2: for every received response whose status is not in the success
range, the (spec-modelled) final executor fails with a RequestError whose
message depends on the status class: for status 500-599 the message
contains the transient-network-fluctuation wording, while for any other
non-success status the message states the literal status code. -/
theorem C2_status_classified_messages {T : Type} (opts : CommonRequestOptions T)
    (defaultT : ResponseModel → T) (res : ResponseModel)
    (hfail : resOk res = false) :
    handleResponseFinal opts defaultT res =
      .error (.requestError (statusFailureMessage res.status) (some res)) ∧
    ((500 ≤ res.status ∧ res.status ≤ 599) →
      containsSub (statusFailureMessage res.status) "临时网络波动") ∧
    (¬(500 ≤ res.status ∧ res.status ≤ 599) →
      containsSub (statusFailureMessage res.status) (toString res.status)) := by
  refine ⟨by simp [handleResponseFinal, hfail], ?_, ?_⟩
  · intro h5
    rw [statusFailureMessage, if_pos h5]
    have hBIG : (")，可能是临时网络波动，如果长时间失败请联系开发者" : String) =
        ")，可能是" ++ ("临时网络波动" ++ "，如果长时间失败请联系开发者") := by decide
    rw [hBIG]
    exact containsSub_append_left _ _ _
      (containsSub_append_left _ _ _ (containsSub_of_parts _ _ _))
  · intro h5
    rw [statusFailureMessage, if_neg h5]
    exact ⟨"HTTP响应状态：".data, [], by simp [String.data_append]⟩

/-- C2 witness: a 404 response fails with a message stating the literal
status code. -/
theorem C2_witness :
    resOk resNotFound = false ∧
    (handleResponseFinal ({} : CommonRequestOptions String) defaultTText resNotFound =
        .error (.requestError (statusFailureMessage resNotFound.status) (some resNotFound)) ∧
      ((500 ≤ resNotFound.status ∧ resNotFound.status ≤ 599) →
        containsSub (statusFailureMessage resNotFound.status) "临时网络波动") ∧
      (¬(500 ≤ resNotFound.status ∧ resNotFound.status ≤ 599) →
        containsSub (statusFailureMessage resNotFound.status) (toString resNotFound.status))) :=
  ⟨by decide, C2_status_classified_messages ({} : CommonRequestOptions String) defaultTText
    resNotFound (by decide)⟩

/-- C6: for every timeout value T that is a positive safe integer, the
executor arms a cancellation signal firing after T milliseconds, and when
the transport is aborted by that signal (never resolving on its own) the
call fails with a RequestError whose message contains the literal value
T. -/
theorem C6_timeout_abort_yields_request_error_with_T {T : Type} (env : Env)
    (defaultT : ResponseModel → T) (transport : Nat → TransportBehavior)
    (reqUrl : ReqUrl) (opts : CommonRequestOptions T) (Tm : Nat)
    (htime : opts.timeout = some (.int (Tm : Int))) (hpos : 0 < Tm)
    (hsafe : Tm ≤ maxSafeInteger) (hmr : opts.maxRetry = none)
    (hreq : ∃ r, (createRequest env reqUrl opts).1 = .ok r)
    (hhang : transport 1 = .hangs) :
    armedSignalDelay opts = some (.int (Tm : Int)) ∧
    request env defaultT transport reqUrl opts =
      (.err (.requestError (timeoutMessage (.int (Tm : Int))) none), 1) ∧
    containsSub (timeoutMessage (.int (Tm : Int))) (toString Tm) := by
  obtain ⟨r, hr⟩ := hreq
  have htm : resolvedTimeout opts = .int (Tm : Int) := by
    rw [resolvedTimeout, htime]; rfl
  have hcond := jsnum_int_pos_cond Tm hpos hsafe
  have hmrc : resolvedMaxRetry opts = .int 0 := by
    rw [resolvedMaxRetry, hmr]; rfl
  have hcondF : ((JsNum.int 0).isSafeInteger && (JsNum.int 0).gt0) = false := by decide
  have hdo : doReq env defaultT transport reqUrl opts 1 =
      .err (.requestError (timeoutMessage (.int (Tm : Int))) none) := by
    simp [doReq, hr, hhang, htm, hcond]
  refine ⟨?_, ?_, ?_⟩
  · simp [armedSignalDelay, htm, hcond]
  · simp [request, hmrc, hcondF, hdo, AttemptResult.toRun]
  · have hts : (JsNum.int (Tm : Int)).toStr = toString Tm := rfl
    rw [timeoutMessage, hts]
    exact containsSub_of_parts _ _ _

/-- C6 witness: timeout 100 with a never-settling transport yields the
timeout RequestError whose message contains 100. -/
theorem C6_witness :
    (optsTimeout100.timeout = some (.int (100 : Nat)) ∧ optsTimeout100.maxRetry = none) ∧
    (armedSignalDelay optsTimeout100 = some (.int (100 : Nat)) ∧
      request envTest defaultTText hangTransport (.strOk urlPlain) optsTimeout100 =
        (.err (.requestError (timeoutMessage (.int (100 : Nat))) none), 1) ∧
      containsSub (timeoutMessage (.int (100 : Nat))) (toString (100 : Nat))) :=
  ⟨⟨rfl, rfl⟩,
    C6_timeout_abort_yields_request_error_with_T envTest defaultTText hangTransport
      (.strOk urlPlain) optsTimeout100 100 rfl (by decide) (by decide) rfl ⟨_, rfl⟩ rfl⟩

/-- C7: for every built request, the default user-agent string is injected
if and only if `useDefaultUserAgent` resolves true (defaulting to the
negation of the browser detection) and no user-agent header is already
present under case-insensitive matching; a caller-supplied user-agent
header of any casing is never overwritten. -/
theorem C7_user_agent_injection {T : Type} (env : Env) (reqUrl : ReqUrl)
    (opts : CommonRequestOptions T) (req : RequestModel)
    (h : (createRequest env reqUrl opts).1 = .ok req) :
    (headersGet req.headers "user-agent" =
      if opts.useDefaultUserAgent.getD (!env.isBrowser) &&
          !(headersHas (mkHeaders opts.headers) "user-agent") then
        some env.defaultUserAgent
      else headersGet (mkHeaders opts.headers) "user-agent") ∧
    (∀ v, headersGet (mkHeaders opts.headers) "user-agent" = some v →
      headersGet req.headers "user-agent" = some v) := by
  have hh := createRequest_ok_headers env reqUrl opts req h
  constructor
  · rw [hh]
    cases hc : (opts.useDefaultUserAgent.getD (!env.isBrowser) &&
        !(headersHas (mkHeaders opts.headers) "user-agent")) with
    | true => simp [headersGet_set_self]
    | false => simp
  · intro v hv
    have hhas := headersHas_of_get (mkHeaders opts.headers) "user-agent" v hv
    rw [hh, if_neg]
    · exact hv
    · simp [hhas]

/-- C7 witness: a caller-supplied `USER-AGENT` header survives the build
unchanged and blocks the default injection. -/
theorem C7_witness :
    (createRequest envTest (.strOk urlPlain) optsCustomUA).1 =
        .ok ⟨urlPlain, "GET", [("user-agent", "Custom-Agent")]⟩ ∧
    ((headersGet (RequestModel.mk urlPlain "GET" [("user-agent", "Custom-Agent")]).headers
        "user-agent" =
      if optsCustomUA.useDefaultUserAgent.getD (!envTest.isBrowser) &&
          !(headersHas (mkHeaders optsCustomUA.headers) "user-agent") then
        some envTest.defaultUserAgent
      else headersGet (mkHeaders optsCustomUA.headers) "user-agent") ∧
    (∀ v, headersGet (mkHeaders optsCustomUA.headers) "user-agent" = some v →
      headersGet (RequestModel.mk urlPlain "GET" [("user-agent", "Custom-Agent")]).headers
        "user-agent" = some v)) :=
  ⟨rfl, C7_user_agent_injection envTest (.strOk urlPlain) optsCustomUA
    ⟨urlPlain, "GET", [("user-agent", "Custom-Agent")]⟩ rfl⟩

/-- C8 counterexample: the builder does mutate a caller-visible value —
with `appendTimestamp = true` and a caller-supplied URL object, the URL
object (aliased by the builder) ends up with the timestamp parameter
added, so it is not left unchanged. -/
theorem C8_counterexample :
    (createRequest envTest (.urlObj urlPlain) optsTs).2 =
      some (searchParamsSet urlPlain "t" (toString envTest.now)) ∧
    searchParamsSet urlPlain "t" (toString envTest.now) ≠ urlPlain := by
  exact ⟨rfl, by decide⟩

/-- C8 (amended): the request builder performs no I/O and returns a new
request value, but the URL object it operates on — the caller's own object
when a URL rather than a string was passed — is mutated exactly when
`appendTimestamp` resolves true, by setting the timestamp parameter; when
`appendTimestamp` resolves false (the default) the URL is left
unchanged. -/
theorem C8_amended_url_mutated_only_by_timestamp {T : Type} (env : Env) (u : URLModel)
    (opts : CommonRequestOptions T) (reqUrl : ReqUrl)
    (hin : reqUrl = .strOk u ∨ reqUrl = .urlObj u)
    (hnoconf : opts.appendTimestamp.getD false = true →
      searchParamsHas u (opts.timestampParamName.getD "t") = false) :
    (createRequest env reqUrl opts).2 =
      some (if opts.appendTimestamp.getD false then
              searchParamsSet u (opts.timestampParamName.getD "t") (toString env.now)
            else u) := by
  rcases hin with h | h <;> subst h <;>
    cases hts : opts.appendTimestamp.getD false with
    | true => simp [createRequest, hts, hnoconf hts]
    | false => simp [createRequest, hts]

/-- C8 witness (for the amended claim): with `appendTimestamp` absent the
caller-supplied URL object is left unchanged. -/
theorem C8_witness :
    (optsTimeout100.appendTimestamp.getD false = true →
      searchParamsHas urlPlain (optsTimeout100.timestampParamName.getD "t") = false) ∧
    (createRequest envTest (.urlObj urlPlain) optsTimeout100).2 =
      some (if optsTimeout100.appendTimestamp.getD false then
              searchParamsSet urlPlain (optsTimeout100.timestampParamName.getD "t")
                (toString envTest.now)
            else urlPlain) :=
  ⟨by decide,
    C8_amended_url_mutated_only_by_timestamp envTest urlPlain optsTimeout100
      (.urlObj urlPlain) (Or.inr rfl) (by decide)⟩

/-- C9: for every request whose RequestError carries a non-success response
with Set-Cookie headers, the (spec-modelled) HttpClient error path stores
the cookies into the jar under the request domain even though the call
raises the error, and the original error is re-raised unchanged — the
cookie-extraction side effect never masks or replaces it. -/
theorem C9_error_path_cookie_extraction (jar : CookieJar) (domain msg : String)
    (res : ResponseModel) (_hfail : resOk res = false) (_hcookies : res.setCookies ≠ []) :
    (clientOnError jar domain (.requestError msg (some res))).2 =
      .requestError msg (some res) ∧
    ∀ nv ∈ res.setCookies,
      ∃ w, (domain, nv.1, w) ∈
        (clientOnError jar domain (.requestError msg (some res))).1.store := by
  refine ⟨rfl, ?_⟩
  intro nv hnv
  exact storeSetCookies_mem domain res.setCookies jar nv.1 nv.2 (by simpa using hnv)

/-- C9 witness: a 500 response carrying `error_session=error123` stores the
cookie for the domain while the RequestError propagates unchanged. -/
theorem C9_witness :
    (resOk resServerErrCookie = false ∧ resServerErrCookie.setCookies ≠ []) ∧
    ((clientOnError jarEmpty "example.com" (.requestError nonOkMessage (some resServerErrCookie))).2 =
        .requestError nonOkMessage (some resServerErrCookie) ∧
      ∀ nv ∈ resServerErrCookie.setCookies,
        ∃ w, ("example.com", nv.1, w) ∈
          (clientOnError jarEmpty "example.com"
            (.requestError nonOkMessage (some resServerErrCookie))).1.store) :=
  ⟨⟨by decide, by decide⟩,
    C9_error_path_cookie_extraction jarEmpty "example.com" nonOkMessage resServerErrCookie
      (by decide) (by decide)⟩

/-- C10: for every call whose options explicitly set timeout to 0, a
negative number, or a non-safe-integer value, the executor arms no
cancellation signal and does not substitute the 120000 ms default (the
resolved timeout stays the explicit value), so with a never-settling
transport the attempt waits indefinitely. -/
theorem C10_invalid_timeout_no_signal_no_default {T : Type} (env : Env)
    (defaultT : ResponseModel → T) (transport : Nat → TransportBehavior)
    (reqUrl : ReqUrl) (opts : CommonRequestOptions T) (t : JsNum)
    (htime : opts.timeout = some t)
    (hbad : t = .int 0 ∨ (∃ n : Int, t = .int n ∧ n < 0) ∨ t.isSafeInteger = false)
    (hreq : ∃ r, (createRequest env reqUrl opts).1 = .ok r)
    (hhang : transport 1 = .hangs) :
    resolvedTimeout opts = t ∧ armedSignalDelay opts = none ∧
    request env defaultT transport reqUrl opts = (.hangs, 1) := by
  obtain ⟨r, hr⟩ := hreq
  have htm : resolvedTimeout opts = t := by rw [resolvedTimeout, htime]; rfl
  have hcond : (t.isSafeInteger && t.gt0) = false := by
    rcases hbad with h | ⟨n, hn, hneg⟩ | h
    · subst h; decide
    · subst hn
      have hg : (JsNum.int n).gt0 = false := by
        simp [JsNum.gt0]; omega
      simp [hg]
    · simp [h]
  have hdo : doReq env defaultT transport reqUrl opts 1 = .hangs := by
    simp [doReq, hr, hhang, htm, hcond]
  refine ⟨htm, ?_, ?_⟩
  · simp [armedSignalDelay, htm, hcond]
  · simp only [request]
    cases hb : ((resolvedMaxRetry opts).isSafeInteger && (resolvedMaxRetry opts).gt0) with
    | false => simp [hdo, AttemptResult.toRun]
    | true => simp [retryLoop, hdo]

/-- C10 witness: an explicit timeout of 0 arms no signal, keeps the
resolved timeout at 0, and the call never settles on a hanging
transport. -/
theorem C10_witness :
    (optsTimeout0.timeout = some (.int 0)) ∧
    (resolvedTimeout optsTimeout0 = .int 0 ∧ armedSignalDelay optsTimeout0 = none ∧
      request envTest defaultTText hangTransport (.strOk urlPlain) optsTimeout0 = (.hangs, 1)) :=
  ⟨rfl,
    C10_invalid_timeout_no_signal_no_default envTest defaultTText hangTransport
      (.strOk urlPlain) optsTimeout0 (.int 0) rfl (Or.inl rfl) ⟨_, rfl⟩ rfl⟩

end NodeCommon
